import Mathlib

/-!
Shallow embedding of `src/app.py` (a Streamlit front-end over the OpenAI
assistants API).  The remote service is modelled by scripts: a scripted
sequence of `Run` values returned by successive `runs.retrieve` calls, and a
scripted newest-first message list returned by `messages.list`.  Every
side-effecting call (Streamlit UI output, remote API call, the mock email
send) is recorded as an `Event` in an ordered trace, and the Streamlit
session state is threaded explicitly.
-/

namespace Picky

/-- Message roles used by the app (`"user"` / `"assistant"`). -/
inductive Role
  | user
  | assistant
  deriving DecidableEq

/-- One entry of `st.session_state.messages`: a dict with role and content. -/
structure Message where
  role : Role
  content : String
  deriving DecidableEq

/-- The Streamlit session state: `assistant_id`, `thread_id`, `messages`,
`email_list` (all initialised in lines 36-43 of `app.py`). -/
structure SessionState where
  assistant_id : Option String
  thread_id : Option String
  messages : List Message
  email_list : List String
  deriving DecidableEq

/-- Status of a remote run, as tested by the app. -/
inductive RunStatus
  | queued
  | in_progress
  | requires_action
  | completed
  | failed
  | cancelled
  | expired
  deriving DecidableEq

/-- The argument payload carried by a tool call, at the granularity the app
observes it: `json.loads` either raises (`invalid`) or yields an object of
string-valued fields. -/
inductive ArgsJson
  | invalid
  | object (fields : List (String × String))
  deriving DecidableEq

/-- Interface model of `json.loads` on a tool call's `arguments` string:
`none` models the raised `JSONDecodeError`. -/
def json_loads : ArgsJson → Option (List (String × String))
  | ArgsJson.invalid => none
  | ArgsJson.object fields => some fields

/-- Dictionary lookup `args[key]`: `none` models the raised `KeyError`. -/
def lookupField (fields : List (String × String)) (key : String) : Option String :=
  (fields.find? (fun kv => kv.1 == key)).map (fun kv => kv.2)

/-- One element of `run.required_action.submit_tool_outputs.tool_calls`. -/
structure ToolCall where
  id : String
  function_name : String
  function_arguments : ArgsJson
  deriving DecidableEq

/-- A remote run object as the app reads it: `run.id`, `run.status`, and the
attached tool calls (meaningful when the status is `requires_action`). -/
structure Run where
  id : String
  status : RunStatus
  tool_calls : List ToolCall
  deriving DecidableEq

/-- One element of the `tool_outputs` batch submitted back to the run. -/
structure ToolOutput where
  tool_call_id : String
  output : String
  deriving DecidableEq

/-- A message of the remote thread as returned by `messages.list` (newest
first); `content` is the list of the text values of its content blocks. -/
structure RemoteMessage where
  role : Role
  content : List String
  deriving DecidableEq

/-- Observable effects of the handlers, in program order. -/
inductive Event
  | warn (text : String)
  | errorMsg (text : String)
  | info (text : String)
  | successMsg (text : String)
  | localAppend (m : Message)
  | createFile (content : String)
  | createAssistant (file_id : String)
  | createThread
  | remoteAppendMessage (thread_id : String) (role : Role) (content : String)
  | createRun (thread_id : String) (assistant_id : String)
  | retrieveRun (thread_id : String) (run_id : String)
  | sendEmail (toAddr : String) (subject : String) (body : String)
  | submitToolOutputs (thread_id : String) (run_id : String) (outputs : List ToolOutput)
  | listMessages (thread_id : String)
  deriving DecidableEq

/-- Events that are calls to the remote service (OpenAI client calls). -/
def Event.isRemote : Event → Bool
  | Event.createFile _ => true
  | Event.createAssistant _ => true
  | Event.createThread => true
  | Event.remoteAppendMessage _ _ _ => true
  | Event.createRun _ _ => true
  | Event.retrieveRun _ _ => true
  | Event.submitToolOutputs _ _ _ => true
  | Event.listMessages _ => true
  | _ => false

/-- Recognises a `retrieveRun` event (one polling query). -/
def Event.isRetrieve : Event → Bool
  | Event.retrieveRun _ _ => true
  | _ => false

/-- Recognises a `submitToolOutputs` event (one round of tool fulfillment). -/
def Event.isSubmit : Event → Bool
  | Event.submitToolOutputs _ _ _ => true
  | _ => false

/-- Recognises an invocation of the local tool executor `send_email`. -/
def Event.isSendEmail : Event → Bool
  | Event.sendEmail _ _ _ => true
  | _ => false

/-- Recognises a local append of an assistant-role message. -/
def Event.isAssistantAppend : Event → Bool
  | Event.localAppend ⟨Role.assistant, _⟩ => true
  | _ => false

/-- The tool executor of `app.py` lines 9-25: prints the mock email and
returns the fixed success text. -/
def send_email (toAddr : String) (subject : String) (body : String) : String :=
  "Email sent successfully!"

/-- Characters stripped by Python's `str.strip()` with no argument (ASCII
whitespace: tab, newline, vertical tab, form feed, carriage return, space). -/
def isPyWhitespace (c : Char) : Bool :=
  c.toNat == 9 || c.toNat == 10 || c.toNat == 11 || c.toNat == 12 ||
    c.toNat == 13 || c.toNat == 32

/-- Python's `str.strip()`: drop leading and trailing whitespace. -/
def pyStrip (s : String) : String :=
  String.mk (((s.data.dropWhile isPyWhitespace).reverse.dropWhile isPyWhitespace).reverse)

/-- Remote identifiers handed back by the service during provisioning. -/
structure ProvisionScript where
  file_id : String
  assistant_id : String
  thread_id : String
  deriving DecidableEq

/-- The `Create or Update Assistant` button handler (`app.py` lines 67-114):
reject blank context with a warning, otherwise upload the context file, create
the assistant and a fresh thread, store both ids and reset the transcript. -/
def handleProvision (s : SessionState) (context : String) (sc : ProvisionScript) :
    SessionState × List Event :=
  if (pyStrip context).isEmpty then
    (s, [Event.warn "Please provide some context before creating the assistant."])
  else
    ({ s with assistant_id := some sc.assistant_id,
              thread_id := some sc.thread_id,
              messages := [] },
     [Event.createFile context,
      Event.createAssistant sc.file_id,
      Event.createThread,
      Event.successMsg "Assistant created",
      Event.info "A new conversation thread has been started"])

/-- The `Add Email` button handler (`app.py` lines 120-125): append a
non-empty input to the email list, warn on an empty one. -/
def handleAddEmail (s : SessionState) (email_input : String) : SessionState × List Event :=
  if email_input.isEmpty then
    (s, [Event.warn "Please enter an email address."])
  else
    ({ s with email_list := s.email_list ++ [email_input] },
     [Event.successMsg "Added to the list."])

/-- The loop-entry test `run.status in ['queued', 'in_progress']`. -/
def inPollingSet : RunStatus → Bool
  | RunStatus.queued => true
  | RunStatus.in_progress => true
  | _ => false

/-- The polling loop of `app.py` lines 165-170 (and, textually identical,
lines 191-193): while the current run's status is in the polling set, sleep
and re-retrieve the run; successive retrieve results are scripted by the
list argument.  Returns the run on loop exit, the retrieve events emitted,
and the unconsumed script; `none` models an exhausted script, i.e. a loop
that never exits. -/
def pollLoop (thread_id : String) : Run → List Run → Option (Run × List Event × List Run)
  | run, [] =>
      if inPollingSet run.status then none else some (run, [], [])
  | run, r :: rest =>
      if inPollingSet run.status then
        match pollLoop thread_id r rest with
        | none => none
        | some (rfin, evs, rem) =>
            some (rfin, Event.retrieveRun thread_id run.id :: evs, rem)
      else
        some (run, [], r :: rest)

/-- Reads `args['to']`, `args['subject']`, `args['body']` from the parsed
JSON payload (`app.py` lines 177-178); `none` models the raised
`JSONDecodeError` or `KeyError`. -/
def parseEmailArgs (a : ArgsJson) : Option (String × String × String) :=
  match json_loads a with
  | none => none
  | some args =>
    match lookupField args "to", lookupField args "subject", lookupField args "body" with
    | some toAddr, some subject, some body => some (toAddr, subject, body)
    | _, _, _ => none

/-- The body of the dispatch loop for one tool call named `send_email`
(`app.py` lines 176-182): the `st.info` banner is shown before the argument
parse, so it appears in the trace even when the parse raises. -/
def dispatchOne (tc : ToolCall) : List Event × Option ToolOutput :=
  match parseEmailArgs tc.function_arguments with
  | none => ([Event.info "Assistant is requesting to send an email..."], none)
  | some (toAddr, subject, body) =>
      ([Event.info "Assistant is requesting to send an email...",
        Event.sendEmail toAddr subject body],
       some { tool_call_id := tc.id, output := send_email toAddr subject body })

/-- The `for tool_call in ... tool_calls` loop of `app.py` lines 174-182:
calls whose function name is not `send_email` are skipped entirely; a raised
error (`none`) aborts the loop, keeping the events emitted so far. -/
def dispatchCalls : List ToolCall → List Event × Option (List ToolOutput)
  | [] => ([], some [])
  | tc :: rest =>
    if tc.function_name == "send_email" then
      match dispatchOne tc with
      | (evs, none) => (evs, none)
      | (evs, some out) =>
        match dispatchCalls rest with
        | (evs2, none) => (evs ++ evs2, none)
        | (evs2, some outs) => (evs ++ evs2, some (out :: outs))
    else
      dispatchCalls rest

/-- Scripted remote behaviour for one chat cycle: the run returned by
`runs.create`, the successive results of `runs.retrieve`, and the
newest-first list returned by `messages.list`. -/
structure ChatScript where
  initialRun : Run
  retrieves : List Run
  finalMessages : List RemoteMessage
  deriving DecidableEq

/-- How a chat cycle ends: normally, via `st.stop()`, via an uncaught
exception, or not at all (an unbounded polling loop that never exits). -/
inductive Outcome
  | ok
  | stopped
  | exn (reason : String)
  | diverged
  deriving DecidableEq

/-- Result of one chat cycle: final session state, the ordered event trace,
and how the cycle ended.  State mutations made before an exception persist,
as Streamlit session state does. -/
structure ChatResult where
  state : SessionState
  events : List Event
  outcome : Outcome
  deriving DecidableEq

/-- The user message record appended at `app.py` line 146. -/
def userMsg (prompt : String) : Message :=
  { role := Role.user, content := prompt }

/-- The assistant message record appended at `app.py` line 202. -/
def assistantMsg (c : String) : Message :=
  { role := Role.assistant, content := c }

/-- Retrieval of the final reply (`app.py` lines 197-202): list the thread's
messages and take `messages.data[0].content[0].text.value` — the newest
message, first content block, with no filter by role; an empty list or empty
content raises `IndexError`. -/
def fetchFinal (thread_id : String) (s : SessionState) (evs : List Event)
    (finalMessages : List RemoteMessage) : ChatResult :=
  match finalMessages with
  | [] =>
      { state := s, events := evs ++ [Event.listMessages thread_id],
        outcome := Outcome.exn "IndexError" }
  | m :: _ =>
    match m.content with
    | [] =>
        { state := s, events := evs ++ [Event.listMessages thread_id],
          outcome := Outcome.exn "IndexError" }
    | c :: _ =>
        { state := { s with messages := s.messages ++ [assistantMsg c] },
          events := evs ++ [Event.listMessages thread_id,
                            Event.localAppend (assistantMsg c)],
          outcome := Outcome.ok }

/-- Continuation after polling loop A (`app.py` lines 172-202): on
`requires_action`, dispatch the tool calls, submit the outputs, and re-enter
the polling loop — note the loop condition re-tests the same stale `run`
object, since the result of `submit_tool_outputs` is never assigned to
`run`; finally fetch the newest thread message. -/
def afterPollA (thread_id : String) (s : SessionState) (evs : List Event)
    (runA : Run) (rem : List Run) (finalMessages : List RemoteMessage) : ChatResult :=
  if runA.status = RunStatus.requires_action then
    match dispatchCalls runA.tool_calls with
    | (devs, none) =>
        { state := s, events := evs ++ devs, outcome := Outcome.exn "tool argument error" }
    | (devs, some outs) =>
      match pollLoop thread_id runA rem with
      | none =>
          { state := s,
            events := evs ++ devs ++ [Event.submitToolOutputs thread_id runA.id outs],
            outcome := Outcome.diverged }
      | some (_, bevs, _) =>
          fetchFinal thread_id s
            (evs ++ devs ++ [Event.submitToolOutputs thread_id runA.id outs] ++ bevs)
            finalMessages
  else
    fetchFinal thread_id s evs finalMessages

/-- Python truthiness of an optional string: `None` and `""` are falsy. -/
def truthyOpt : Option String → Bool
  | none => false
  | some s => !s.isEmpty

/-- The events emitted by `app.py` lines 146-161 before polling begins:
local user-message append, remote user-message append, run creation. -/
def chatStartEvents (tid : String) (aid : String) (prompt : String) : List Event :=
  [Event.localAppend (userMsg prompt),
   Event.remoteAppendMessage tid Role.user prompt,
   Event.createRun tid aid]

/-- The chat input handler (`app.py` lines 140-204): guard on both handles,
append the user message locally then remotely, create a run, poll it, handle
`requires_action`, and append the fetched reply as the assistant message. -/
def handleChat (s : SessionState) (prompt : String) (sc : ChatScript) : ChatResult :=
  if truthyOpt s.assistant_id && truthyOpt s.thread_id then
    match pollLoop (s.thread_id.getD "") sc.initialRun sc.retrieves with
    | none =>
        { state := { s with messages := s.messages ++ [userMsg prompt] },
          events := chatStartEvents (s.thread_id.getD "") (s.assistant_id.getD "") prompt,
          outcome := Outcome.diverged }
    | some (runA, aevs, rem) =>
        afterPollA (s.thread_id.getD "")
          { s with messages := s.messages ++ [userMsg prompt] }
          (chatStartEvents (s.thread_id.getD "") (s.assistant_id.getD "") prompt ++ aevs)
          runA rem sc.finalMessages
  else
    { state := s,
      events := [Event.errorMsg "Please create an assistant first using the sidebar."],
      outcome := Outcome.stopped }

/-- The ToolOutput the app builds for a fulfilled `send_email` call
(`app.py` lines 179-182). -/
def expectedOutput (tc : ToolCall) : ToolOutput :=
  { tool_call_id := tc.id, output := "Email sent successfully!" }

/-! ## Concrete inputs used to exercise the handlers -/

/-- A session with both handles set and an empty transcript. -/
def stReady : SessionState :=
  { assistant_id := some "asst_1", thread_id := some "thread_1",
    messages := [], email_list := [] }

/-- A well-formed `send_email` tool call. -/
def tcDemo : ToolCall :=
  { id := "call_1", function_name := "send_email",
    function_arguments := ArgsJson.object
      [("to", "a@example.com"), ("subject", "S"), ("body", "B")] }

/-- A tool call whose function name the app does not implement. -/
def tcUnknownW : ToolCall :=
  { id := "call_2", function_name := "lookup_weather",
    function_arguments := ArgsJson.object [("city", "Paris")] }

/-- A `send_email` tool call whose payload lacks the `subject` and `body` keys. -/
def tcBadW : ToolCall :=
  { id := "call_3", function_name := "send_email",
    function_arguments := ArgsJson.object [("to", "a@example.com")] }

/-- Script for the stale-run scenario: loop A sees `requires_action` after one
poll, and after the tool outputs are submitted the remote run is still
`in_progress` before completing; the newest thread message at fetch time is
still the user's own message. -/
def scriptStaleRun : ChatScript :=
  { initialRun := { id := "run_1", status := RunStatus.queued, tool_calls := [] },
    retrieves :=
      [{ id := "run_1", status := RunStatus.requires_action, tool_calls := [tcDemo] },
       { id := "run_1", status := RunStatus.in_progress, tool_calls := [] },
       { id := "run_1", status := RunStatus.completed, tool_calls := [] }],
    finalMessages :=
      [{ role := Role.user, content := ["send the report to a@example.com"] }] }

/-- Script for a plain completed run with an assistant reply. -/
def scPlain : ChatScript :=
  { initialRun := { id := "run_2", status := RunStatus.completed, tool_calls := [] },
    retrieves := [],
    finalMessages := [{ role := Role.assistant, content := ["Hello!"] }] }

/-- Script whose run ends `failed` after one poll, with a user-role message
newest in the thread. -/
def scOneFailed : ChatScript :=
  { initialRun := { id := "run_3", status := RunStatus.queued, tool_calls := [] },
    retrieves := [{ id := "run_3", status := RunStatus.failed, tool_calls := [] }],
    finalMessages := [{ role := Role.user, content := ["what is the refund policy"] }] }

/-- A run requesting one well-formed `send_email` action. -/
def runRAW : Run :=
  { id := "run_4", status := RunStatus.requires_action, tool_calls := [tcDemo] }

/-- Script whose run immediately requires action with one good tool call. -/
def scToolRound : ChatScript :=
  { initialRun := runRAW, retrieves := [],
    finalMessages := [{ role := Role.assistant, content := ["Done."] }] }

/-- A run requesting a `send_email` action with a missing argument key. -/
def runRABad : Run :=
  { id := "run_5", status := RunStatus.requires_action, tool_calls := [tcBadW] }

/-- Script whose run immediately requires action with a bad tool call. -/
def scBadArgs : ChatScript :=
  { initialRun := runRABad, retrieves := [],
    finalMessages := [{ role := Role.assistant, content := ["unreached"] }] }

/-! ## Supporting lemmas -/

theorem pollLoop_stopped (tid : String) (run : Run) (script : List Run)
    (h : inPollingSet run.status = false) :
    pollLoop tid run script = some (run, [], script) := by
  cases script <;> simp [pollLoop, h]

theorem pollLoop_events_retrieve (tid : String) (run : Run) (script : List Run)
    (rfin : Run) (evs : List Event) (rem : List Run)
    (h : pollLoop tid run script = some (rfin, evs, rem)) :
    ∀ e ∈ evs, e.isRetrieve = true := by
  induction script generalizing run rfin evs rem with
  | nil =>
    cases hp : inPollingSet run.status <;> simp [pollLoop, hp] at h
    simp [h.2.1]
  | cons r rest ih =>
    cases hp : inPollingSet run.status with
    | false =>
      simp [pollLoop, hp] at h
      simp [h.2.1]
    | true =>
      simp only [pollLoop, hp, if_true] at h
      cases hrec : pollLoop tid r rest with
      | none => rw [hrec] at h; exact absurd h (by simp)
      | some trip =>
        obtain ⟨rf, evs1, rm⟩ := trip
        rw [hrec] at h
        simp at h
        obtain ⟨-, hevs, -⟩ := h
        intro e he
        rw [← hevs] at he
        rcases List.mem_cons.mp he with h1 | h1
        · rw [h1]; rfl
        · exact ih r rf evs1 rm hrec e h1

theorem retrieve_not_other (e : Event) (h : e.isRetrieve = true) :
    e.isSendEmail = false ∧ e.isSubmit = false ∧ e.isAssistantAppend = false ∧
      e.isRemote = true := by
  cases e <;> simp_all [Event.isRetrieve, Event.isSendEmail, Event.isSubmit,
    Event.isAssistantAppend, Event.isRemote]

theorem all_retrieve_filters (evs : List Event)
    (h : ∀ e ∈ evs, e.isRetrieve = true) :
    evs.filter Event.isSendEmail = [] ∧ evs.filter Event.isSubmit = [] ∧
      evs.filter Event.isAssistantAppend = [] := by
  refine ⟨?_, ?_, ?_⟩ <;>
    · rw [List.filter_eq_nil_iff]
      intro e he
      have := retrieve_not_other e (h e he)
      simp_all

/-- Lines 191-193 re-test the stale run object, so whenever loop B is
reached its guard is already false and it performs no retrieve at all. -/
theorem pollLoop_requires_action (tid : String) (runA : Run) (rem : List Run)
    (h : runA.status = RunStatus.requires_action) :
    pollLoop tid runA rem = some (runA, [], rem) :=
  pollLoop_stopped tid runA rem (by rw [h]; rfl)

theorem dispatchOne_ok (tc : ToolCall) (evs : List Event) (out : ToolOutput)
    (h : dispatchOne tc = (evs, some out)) :
    out = expectedOutput tc := by
  cases hp : parseEmailArgs tc.function_arguments with
  | none => simp [dispatchOne, hp] at h
  | some triple =>
    obtain ⟨a, b, c⟩ := triple
    simp [dispatchOne, hp] at h
    rw [← h.2]
    rfl

theorem dispatchOne_events_classified (tc : ToolCall) :
    ∀ e ∈ (dispatchOne tc).1, e.isSubmit = false ∧ e.isAssistantAppend = false ∧
      e.isRetrieve = false := by
  cases hp : parseEmailArgs tc.function_arguments with
  | none => simp [dispatchOne, hp, Event.isSubmit, Event.isAssistantAppend, Event.isRetrieve]
  | some triple =>
    obtain ⟨a, b, c⟩ := triple
    simp [dispatchOne, hp, Event.isSubmit, Event.isAssistantAppend, Event.isRetrieve]

theorem dispatchCalls_events_classified (tcs : List ToolCall) :
    ∀ e ∈ (dispatchCalls tcs).1, e.isSubmit = false ∧ e.isAssistantAppend = false ∧
      e.isRetrieve = false := by
  induction tcs with
  | nil => simp [dispatchCalls]
  | cons tc rest ih =>
    cases hname : tc.function_name == "send_email" with
    | false => simpa [dispatchCalls, hname] using ih
    | true =>
      cases hone : dispatchOne tc with
      | mk evs1 oo =>
        have hone1 := dispatchOne_events_classified tc
        rw [hone] at hone1
        cases oo with
        | none =>
          simp only [dispatchCalls, hname, if_true, hone]
          exact hone1
        | some out =>
          cases hrest : dispatchCalls rest with
          | mk evs2 oo2 =>
            have ih2 := ih
            rw [hrest] at ih2
            cases oo2 with
            | none =>
              simp only [dispatchCalls, hname, if_true, hone, hrest]
              intro e he
              rcases List.mem_append.mp he with h1 | h1
              · exact hone1 e h1
              · exact ih2 e h1
            | some outs =>
              simp only [dispatchCalls, hname, if_true, hone, hrest]
              intro e he
              rcases List.mem_append.mp he with h1 | h1
              · exact hone1 e h1
              · exact ih2 e h1

theorem dispatchCalls_output_shape (tcs : List ToolCall) (devs : List Event)
    (outs : List ToolOutput) (h : dispatchCalls tcs = (devs, some outs)) :
    outs = (tcs.filter (fun tc => tc.function_name == "send_email")).map expectedOutput := by
  induction tcs generalizing devs outs with
  | nil =>
    simp [dispatchCalls] at h
    simp [h.2]
  | cons tc rest ih =>
    cases hname : tc.function_name == "send_email" with
    | false =>
      simp only [dispatchCalls, hname, if_false] at h
      simpa [List.filter_cons, hname] using ih devs outs h
    | true =>
      cases hone : dispatchOne tc with
      | mk evs1 oo =>
        cases oo with
        | none => simp [dispatchCalls, hname, hone] at h
        | some out =>
          cases hrest : dispatchCalls rest with
          | mk evs2 oo2 =>
            cases oo2 with
            | none => simp [dispatchCalls, hname, hone, hrest] at h
            | some outs2 =>
              simp only [dispatchCalls, hname, if_true, hone, hrest] at h
              have hout := dispatchOne_ok tc evs1 out hone
              simp at h
              rw [← h.2, hout, ih evs2 outs2 hrest]
              simp [List.filter_cons, hname]

theorem dispatchCalls_all_ok (tcs : List ToolCall)
    (h : ∀ tc ∈ tcs, tc.function_name = "send_email" →
      (parseEmailArgs tc.function_arguments).isSome = true) :
    ∃ devs, dispatchCalls tcs =
        (devs, some ((tcs.filter (fun tc => tc.function_name == "send_email")).map
          expectedOutput)) ∧
      (devs.filter Event.isSendEmail).length =
        (tcs.filter (fun tc => tc.function_name == "send_email")).length := by
  induction tcs with
  | nil => exact ⟨[], rfl, rfl⟩
  | cons tc rest ih =>
    obtain ⟨devs, hd, hlen⟩ := ih (fun x hx => h x (List.mem_cons_of_mem tc hx))
    cases hname : tc.function_name == "send_email" with
    | false =>
      refine ⟨devs, ?_, ?_⟩
      · simpa [dispatchCalls, hname, List.filter_cons] using hd
      · simpa [List.filter_cons, hname] using hlen
    | true =>
      have hn : tc.function_name = "send_email" := by
        simpa using hname
      have hsome := h tc (List.mem_cons_self tc rest) hn
      cases hp : parseEmailArgs tc.function_arguments with
      | none => rw [hp] at hsome; simp at hsome
      | some triple =>
        obtain ⟨a, b, c⟩ := triple
        refine ⟨[Event.info "Assistant is requesting to send an email...",
                 Event.sendEmail a b c] ++ devs, ?_, ?_⟩
        · simp only [dispatchCalls, hname, if_true, dispatchOne, hp]
          rw [hd]
          simp [List.filter_cons, hname, expectedOutput, send_email]
        · rw [List.filter_append]
          simp only [List.length_append]
          have h1 : ([Event.info "Assistant is requesting to send an email...",
              Event.sendEmail a b c].filter Event.isSendEmail).length = 1 := rfl
          rw [h1, hlen]
          simp [List.filter_cons, hname]
          omega

theorem handleChat_guard_pass (s : SessionState) (prompt : String) (sc : ChatScript)
    (aid tid : String) (ha : s.assistant_id = some aid) (ht : s.thread_id = some tid)
    (ha2 : aid.isEmpty = false) (ht2 : tid.isEmpty = false)
    (runA : Run) (aevs : List Event) (rem : List Run)
    (hpoll : pollLoop tid sc.initialRun sc.retrieves = some (runA, aevs, rem)) :
    handleChat s prompt sc =
      afterPollA tid { s with messages := s.messages ++ [userMsg prompt] }
        (chatStartEvents tid aid prompt ++ aevs) runA rem sc.finalMessages := by
  unfold handleChat
  rw [ha, ht]
  simp only [truthyOpt, ha2, ht2, Bool.not_false, Bool.and_self, if_true,
    Option.getD_some]
  rw [hpoll]

theorem afterPollA_terminal (tid : String) (s : SessionState) (evs : List Event)
    (runA : Run) (rem : List Run) (m : RemoteMessage) (restM : List RemoteMessage)
    (c : String) (restC : List String)
    (hnra : runA.status ≠ RunStatus.requires_action)
    (hc : m.content = c :: restC) :
    afterPollA tid s evs runA rem (m :: restM) =
      { state := { s with messages := s.messages ++ [assistantMsg c] },
        events := evs ++ [Event.listMessages tid, Event.localAppend (assistantMsg c)],
        outcome := Outcome.ok } := by
  unfold afterPollA fetchFinal
  simp [hnra, hc]

theorem afterPollA_requires (tid : String) (s : SessionState) (evs : List Event)
    (runA : Run) (rem : List Run) (devs : List Event) (outs : List ToolOutput)
    (m : RemoteMessage) (restM : List RemoteMessage) (c : String) (restC : List String)
    (hra : runA.status = RunStatus.requires_action)
    (hd : dispatchCalls runA.tool_calls = (devs, some outs))
    (hc : m.content = c :: restC) :
    afterPollA tid s evs runA rem (m :: restM) =
      { state := { s with messages := s.messages ++ [assistantMsg c] },
        events := evs ++ devs ++ [Event.submitToolOutputs tid runA.id outs,
                   Event.listMessages tid, Event.localAppend (assistantMsg c)],
        outcome := Outcome.ok } := by
  unfold afterPollA
  rw [hd, pollLoop_requires_action tid runA rem hra]
  simp only [hra, if_true, fetchFinal, hc]
  simp [hc]

theorem afterPollA_dispatch_fail (tid : String) (s : SessionState) (evs : List Event)
    (runA : Run) (rem : List Run) (devs : List Event)
    (finalMessages : List RemoteMessage)
    (hra : runA.status = RunStatus.requires_action)
    (hd : dispatchCalls runA.tool_calls = (devs, none)) :
    afterPollA tid s evs runA rem finalMessages =
      { state := s, events := evs ++ devs, outcome := Outcome.exn "tool argument error" } := by
  unfold afterPollA
  rw [hd]
  simp [hra]

theorem fetchFinal_ok_shape (tid : String) (s : SessionState) (evs : List Event)
    (L : List RemoteMessage) (hok : (fetchFinal tid s evs L).outcome = Outcome.ok) :
    ∃ c tail, fetchFinal tid s evs L =
        { state := { s with messages := s.messages ++ [assistantMsg c] },
          events := evs ++ tail, outcome := Outcome.ok } := by
  cases L with
  | nil => simp [fetchFinal] at hok
  | cons m restM =>
    cases hc : m.content with
    | nil => simp [fetchFinal, hc] at hok
    | cons c restC =>
      exact ⟨c, [Event.listMessages tid, Event.localAppend (assistantMsg c)],
        by simp [fetchFinal, hc]⟩

theorem afterPollA_ok_shape (tid : String) (s : SessionState) (evs : List Event)
    (runA : Run) (rem : List Run) (L : List RemoteMessage)
    (hok : (afterPollA tid s evs runA rem L).outcome = Outcome.ok) :
    ∃ c tail, afterPollA tid s evs runA rem L =
        { state := { s with messages := s.messages ++ [assistantMsg c] },
          events := evs ++ tail, outcome := Outcome.ok } := by
  by_cases hra : runA.status = RunStatus.requires_action
  · cases hd : dispatchCalls runA.tool_calls with
    | mk devs oo =>
      cases oo with
      | none =>
        rw [afterPollA_dispatch_fail tid s evs runA rem devs L hra hd] at hok
        simp at hok
      | some outs =>
        have heq : afterPollA tid s evs runA rem L =
            fetchFinal tid s
              (evs ++ devs ++ [Event.submitToolOutputs tid runA.id outs] ++ [])
              L := by
          unfold afterPollA
          rw [hd, pollLoop_requires_action tid runA rem hra]
          simp [hra]
        rw [heq] at hok ⊢
        obtain ⟨c, tail, hshape⟩ := fetchFinal_ok_shape tid s _ L hok
        refine ⟨c, devs ++ [Event.submitToolOutputs tid runA.id outs] ++ tail, ?_⟩
        rw [hshape]
        simp
  · have heq : afterPollA tid s evs runA rem L = fetchFinal tid s evs L := by
      unfold afterPollA
      simp [hra]
    rw [heq] at hok ⊢
    exact fetchFinal_ok_shape tid s evs L hok

theorem fetchFinal_submit (tid : String) (s : SessionState) (evs : List Event)
    (L : List RemoteMessage) :
    ((fetchFinal tid s evs L).events.filter Event.isSubmit).length =
      (evs.filter Event.isSubmit).length := by
  cases L with
  | nil => simp [fetchFinal, List.filter_append, Event.isSubmit]
  | cons m restM =>
    cases hc : m.content with
    | nil => simp [fetchFinal, hc, List.filter_append, Event.isSubmit]
    | cons c restC =>
      simp [fetchFinal, hc, List.filter_append, Event.isSubmit]

theorem afterPollA_submit_le (tid : String) (s : SessionState) (evs : List Event)
    (runA : Run) (rem : List Run) (L : List RemoteMessage) :
    ((afterPollA tid s evs runA rem L).events.filter Event.isSubmit).length ≤
      (evs.filter Event.isSubmit).length + 1 := by
  have hdevs : ∀ tcs : List ToolCall,
      ((dispatchCalls tcs).1.filter Event.isSubmit) = [] := by
    intro tcs
    rw [List.filter_eq_nil_iff]
    intro e he
    simp [(dispatchCalls_events_classified tcs e he).1]
  by_cases hra : runA.status = RunStatus.requires_action
  · cases hd : dispatchCalls runA.tool_calls with
    | mk devs oo =>
      have hdevs1 : devs.filter Event.isSubmit = [] := by
        have := hdevs runA.tool_calls
        rw [hd] at this
        exact this
      cases oo with
      | none =>
        rw [afterPollA_dispatch_fail tid s evs runA rem devs L hra hd]
        simp [List.filter_append, hdevs1]
      | some outs =>
        have heq : afterPollA tid s evs runA rem L =
            fetchFinal tid s
              (evs ++ devs ++ [Event.submitToolOutputs tid runA.id outs] ++ [])
              L := by
          unfold afterPollA
          rw [hd, pollLoop_requires_action tid runA rem hra]
          simp [hra]
        rw [heq, fetchFinal_submit]
        simp [List.filter_append, hdevs1, Event.isSubmit]
  · have heq : afterPollA tid s evs runA rem L = fetchFinal tid s evs L := by
      unfold afterPollA
      simp [hra]
    rw [heq, fetchFinal_submit]
    omega

theorem chatStartEvents_filters (tid : String) (aid : String) (prompt : String) :
    (chatStartEvents tid aid prompt).filter Event.isSubmit = [] ∧
      (chatStartEvents tid aid prompt).filter Event.isSendEmail = [] ∧
      (chatStartEvents tid aid prompt).filter Event.isAssistantAppend = [] :=
  ⟨rfl, rfl, rfl⟩

theorem handleChat_submit_le_one (s : SessionState) (prompt : String) (sc : ChatScript) :
    ((handleChat s prompt sc).events.filter Event.isSubmit).length ≤ 1 := by
  unfold handleChat
  cases hguard : truthyOpt s.assistant_id && truthyOpt s.thread_id with
  | false =>
    simp [Event.isSubmit]
  | true =>
    simp only [if_true]
    cases hpoll : pollLoop (s.thread_id.getD "") sc.initialRun sc.retrieves with
    | none =>
      rw [(chatStartEvents_filters (s.thread_id.getD "") (s.assistant_id.getD "") prompt).1]
      simp
    | some trip =>
      obtain ⟨runA, aevs, rem⟩ := trip
      have haevs : aevs.filter Event.isSubmit = [] := by
        rw [List.filter_eq_nil_iff]
        intro e he
        have := retrieve_not_other e
          (pollLoop_events_retrieve (s.thread_id.getD "") sc.initialRun sc.retrieves
            runA aevs rem hpoll e he)
        simp [this.2.1]
      have hle := afterPollA_submit_le (s.thread_id.getD "")
        { s with messages := s.messages ++ [userMsg prompt] }
        (chatStartEvents (s.thread_id.getD "") (s.assistant_id.getD "") prompt ++ aevs)
        runA rem sc.finalMessages
      rw [List.filter_append,
        (chatStartEvents_filters (s.thread_id.getD "") (s.assistant_id.getD "") prompt).1,
        haevs] at hle
      simpa using hle

theorem truthyOpt_some (o : Option String) (h : truthyOpt o = true) :
    ∃ x, o = some x ∧ x.isEmpty = false := by
  cases o with
  | none => simp [truthyOpt] at h
  | some x => exact ⟨x, rfl, by simpa [truthyOpt] using h⟩

theorem handleChat_guard_fail (s : SessionState) (prompt : String) (sc : ChatScript)
    (h : (truthyOpt s.assistant_id && truthyOpt s.thread_id) = false) :
    handleChat s prompt sc =
      { state := s,
        events := [Event.errorMsg "Please create an assistant first using the sidebar."],
        outcome := Outcome.stopped } := by
  unfold handleChat
  simp [h]

theorem handleChat_poll_none (s : SessionState) (prompt : String) (sc : ChatScript)
    (aid tid : String) (ha : s.assistant_id = some aid) (ht : s.thread_id = some tid)
    (ha2 : aid.isEmpty = false) (ht2 : tid.isEmpty = false)
    (hpoll : pollLoop tid sc.initialRun sc.retrieves = none) :
    handleChat s prompt sc =
      { state := { s with messages := s.messages ++ [userMsg prompt] },
        events := chatStartEvents tid aid prompt,
        outcome := Outcome.diverged } := by
  unfold handleChat
  rw [ha, ht]
  simp only [truthyOpt, ha2, ht2, Bool.not_false, Bool.and_self, if_true,
    Option.getD_some]
  rw [hpoll]

theorem dropWhile_all_nil {p : Char → Bool} {l : List Char}
    (h : ∀ c ∈ l, p c = true) : l.dropWhile p = [] := by
  induction l with
  | nil => rfl
  | cons a l ih =>
    simp [List.dropWhile_cons, h a (by simp),
      ih (fun c hc => h c (List.mem_cons_of_mem a hc))]

theorem pyStrip_blank (s : String) (h : ∀ c ∈ s.data, isPyWhitespace c = true) :
    (pyStrip s).isEmpty = true := by
  unfold pyStrip
  rw [dropWhile_all_nil h]
  rfl

/-! ## Claim theorems -/

/-- Claim C3.  Polling loop A terminates on every scripted status sequence
made of a finite polling-set prefix followed by a non-polling status: the
loop exits on the run carrying the terminal status, consumes the whole
script, and performs exactly one retrieve query per element of the scripted
sequence after the first one, i.e. one per element of the polling prefix. -/
theorem polling_loop_A_terminates
    (tid : String) (r0 : Run) (script : List Run)
    (statuses : List RunStatus) (t : RunStatus)
    (hmap : (r0 :: script).map Run.status = statuses ++ [t])
    (hpre : ∀ q ∈ statuses, inPollingSet q = true)
    (ht : inPollingSet t = false) :
    ∃ rfin evs, pollLoop tid r0 script = some (rfin, evs, []) ∧
      rfin.status = t ∧ evs.length = statuses.length ∧
      ∀ e ∈ evs, e.isRetrieve = true := by
  induction statuses generalizing r0 script with
  | nil =>
    simp only [List.map_cons, List.nil_append] at hmap
    have h0 : r0.status = t := by
      have := congrArg (fun l => l.headD t) hmap
      simpa using this
    cases script with
    | cons r1 rest => simp at hmap
    | nil =>
      refine ⟨r0, [], ?_, h0, rfl, by simp⟩
      simp [pollLoop, h0, ht]
  | cons q qs ih =>
    simp only [List.map_cons, List.cons_append] at hmap
    have h0 : r0.status = q := (List.cons.injEq _ _ _ _ ▸ hmap).1
    have htail : script.map Run.status = qs ++ [t] := (List.cons.injEq _ _ _ _ ▸ hmap).2
    cases script with
    | nil =>
      exfalso
      cases qs <;> simp at htail
    | cons r1 rest =>
      obtain ⟨rfin, evs, hp, hstat, hlen, hret⟩ :=
        ih r1 rest (by simpa using htail) (fun x hx => hpre x (List.mem_cons_of_mem q hx))
      have hq : inPollingSet r0.status = true := by
        rw [h0]; exact hpre q (List.mem_cons_self q qs)
      refine ⟨rfin, Event.retrieveRun tid r0.id :: evs, ?_, hstat, by simp [hlen], ?_⟩
      · simp [pollLoop, hq, hp]
      · intro e he
        rcases List.mem_cons.mp he with h1 | h1
        · rw [h1]; rfl
        · exact hret e h1

/-- Witness for C3: with the scripted sequence queued, in_progress,
completed, loop A exits on the completed run after exactly 2 retrieves. -/
theorem polling_loop_A_terminates_witness :
    ∃ rfin evs,
      pollLoop "thread_1"
          { id := "run_1", status := RunStatus.queued, tool_calls := [] }
          [{ id := "run_1", status := RunStatus.in_progress, tool_calls := [] },
           { id := "run_1", status := RunStatus.completed, tool_calls := [] }]
        = some (rfin, evs, []) ∧
      rfin.status = RunStatus.completed ∧ evs.length = 2 ∧
      ∀ e ∈ evs, e.isRetrieve = true := by
  have h := polling_loop_A_terminates "thread_1"
    { id := "run_1", status := RunStatus.queued, tool_calls := [] }
    [{ id := "run_1", status := RunStatus.in_progress, tool_calls := [] },
     { id := "run_1", status := RunStatus.completed, tool_calls := [] }]
    [RunStatus.queued, RunStatus.in_progress] RunStatus.completed
    (by decide) (by decide) (by decide)
  simpa using h

/-- Claim C4.  For every empty or whitespace-only context, the provision
handler returns the state unchanged, emits only the warning, and performs
no remote calls. -/
theorem empty_context_rejected
    (s : SessionState) (context : String) (sc : ProvisionScript)
    (h : ∀ c ∈ context.data, isPyWhitespace c = true) :
    handleProvision s context sc =
      (s, [Event.warn "Please provide some context before creating the assistant."]) ∧
    ∀ e ∈ (handleProvision s context sc).2, e.isRemote = false := by
  have hb := pyStrip_blank context h
  have h1 : handleProvision s context sc =
      (s, [Event.warn "Please provide some context before creating the assistant."]) := by
    unfold handleProvision
    simp [hb]
  refine ⟨h1, ?_⟩
  rw [h1]
  simp [Event.isRemote]

/-- Witness for C4: the whitespace-only context made of a space, a tab and a
newline is rejected with a warning and no remote call. -/
theorem empty_context_rejected_witness :
    (∀ c ∈ (" \t\n").data, isPyWhitespace c = true) ∧
    handleProvision stReady " \t\n"
        { file_id := "f1", assistant_id := "a1", thread_id := "t1" } =
      (stReady,
       [Event.warn "Please provide some context before creating the assistant."]) :=
  ⟨by decide,
   (empty_context_rejected stReady " \t\n"
     { file_id := "f1", assistant_id := "a1", thread_id := "t1" } (by decide)).1⟩

/-- Claim C5.  When either handle is absent, the chat handler stops with a
user-visible error, appends no message anywhere, and starts no run: the
state is returned unchanged and the only event is the error message. -/
theorem missing_handles_guard
    (s : SessionState) (prompt : String) (sc : ChatScript)
    (h : s.assistant_id = none ∨ s.thread_id = none) :
    handleChat s prompt sc =
      { state := s,
        events := [Event.errorMsg "Please create an assistant first using the sidebar."],
        outcome := Outcome.stopped } := by
  apply handleChat_guard_fail
  rcases h with h | h <;> simp [h, truthyOpt]

/-- Witness for C5: a session with no assistant handle stops with only the
error message. -/
theorem missing_handles_guard_witness :
    handleChat
        { assistant_id := none, thread_id := some "thread_1",
          messages := [], email_list := [] }
        "hello" scPlain =
      { state := { assistant_id := none, thread_id := some "thread_1",
                   messages := [], email_list := [] },
        events := [Event.errorMsg "Please create an assistant first using the sidebar."],
        outcome := Outcome.stopped } :=
  missing_handles_guard
    { assistant_id := none, thread_id := some "thread_1",
      messages := [], email_list := [] }
    "hello" scPlain (Or.inl rfl)

/-- Counterexample for C9.  A successful provision does not rebuild the list
of known recipient addresses: the pre-existing entry survives, so the
Conversation State is not rebuilt fully as claimed. -/
theorem provision_email_list_not_rebuilt :
    ((handleProvision
        { assistant_id := some "asst_old", thread_id := some "thread_old",
          messages := [{ role := Role.user, content := "hello" }],
          email_list := ["a@example.com"] }
        "product facts"
        { file_id := "file_new", assistant_id := "asst_new",
          thread_id := "thread_new" }).1.email_list = ["a@example.com"]) ∧
    ((handleProvision
        { assistant_id := some "asst_old", thread_id := some "thread_old",
          messages := [{ role := Role.user, content := "hello" }],
          email_list := ["a@example.com"] }
        "product facts"
        { file_id := "file_new", assistant_id := "asst_new",
          thread_id := "thread_new" }).1.email_list ≠ []) := by
  constructor
  · rfl
  · decide

/-- Claim C9 as amended.  Whenever the provisioner runs successfully, the
assistant and conversation handles are replaced by the newly created ones
and the local transcript is cleared, while the list of known recipient
addresses is left unchanged. -/
theorem provision_rebuild_amended
    (s : SessionState) (context : String) (sc : ProvisionScript)
    (h : (pyStrip context).isEmpty = false) :
    (handleProvision s context sc).1 =
      { assistant_id := some sc.assistant_id, thread_id := some sc.thread_id,
        messages := [], email_list := s.email_list } := by
  unfold handleProvision
  simp [h]

/-- Witness for the amended C9. -/
theorem provision_rebuild_amended_witness :
    ((pyStrip "product facts").isEmpty = false) ∧
    (handleProvision
        { assistant_id := some "asst_old", thread_id := some "thread_old",
          messages := [{ role := Role.user, content := "hello" }],
          email_list := ["a@example.com"] }
        "product facts"
        { file_id := "file_new", assistant_id := "asst_new",
          thread_id := "thread_new" }).1 =
      { assistant_id := some "asst_new", thread_id := some "thread_new",
        messages := [], email_list := ["a@example.com"] } :=
  ⟨by decide,
   provision_rebuild_amended
     { assistant_id := some "asst_old", thread_id := some "thread_old",
       messages := [{ role := Role.user, content := "hello" }],
       email_list := ["a@example.com"] }
     "product facts"
     { file_id := "file_new", assistant_id := "asst_new", thread_id := "thread_new" }
     (by decide)⟩

/-- Claim C7.  Whenever the dispatch loop completes without raising, the
batch of tool outputs it builds (and submits verbatim) contains exactly one
output per `send_email`-named call, in order: a request with any other
function name generates no output and is silently omitted from the batch. -/
theorem unknown_tool_call_omitted
    (tcs : List ToolCall) (devs : List Event) (outs : List ToolOutput)
    (h : dispatchCalls tcs = (devs, some outs)) :
    outs = (tcs.filter (fun tc => tc.function_name == "send_email")).map expectedOutput :=
  dispatchCalls_output_shape tcs devs outs h

/-- Witness for C7: a batch holding one good `send_email` call and one
`lookup_weather` call yields a single output, for the former only. -/
theorem unknown_tool_call_omitted_witness :
    (dispatchCalls [tcDemo, tcUnknownW] =
      ([Event.info "Assistant is requesting to send an email...",
        Event.sendEmail "a@example.com" "S" "B"],
       some [{ tool_call_id := "call_1", output := "Email sent successfully!" }])) ∧
    [({ tool_call_id := "call_1", output := "Email sent successfully!" } : ToolOutput)] =
      (([tcDemo, tcUnknownW].filter
          (fun tc => tc.function_name == "send_email")).map expectedOutput) :=
  ⟨by decide,
   unknown_tool_call_omitted [tcDemo, tcUnknownW]
     [Event.info "Assistant is requesting to send an email...",
      Event.sendEmail "a@example.com" "S" "B"]
     [{ tool_call_id := "call_1", output := "Email sent successfully!" }]
     (by decide)⟩

/-- Claim C1 (code bug, exhibited).  In a cycle whose run requires action
after one poll and whose remote run is scripted to still be `in_progress`
after the tool-output submission, the handler performs exactly one retrieve
in total: polling loop B re-tests the stale local run object, whose status
is still `requires_action`, so it polls zero times after the submission, and
the final message — here the user's own message, still newest in the
thread — is fetched and appended as the assistant reply while two scripted
run states (`in_progress`, `completed`) are never observed. -/
theorem polling_loop_B_never_polls :
    ((handleChat stReady "send the report" scriptStaleRun).events.filter Event.isRetrieve
        = [Event.retrieveRun "thread_1" "run_1"]) ∧
    (handleChat stReady "send the report" scriptStaleRun).outcome = Outcome.ok ∧
    scriptStaleRun.retrieves.map Run.status =
      [RunStatus.requires_action, RunStatus.in_progress, RunStatus.completed] ∧
    ((handleChat stReady "send the report" scriptStaleRun).events.filter Event.isSubmit
        = [Event.submitToolOutputs "thread_1" "run_1"
            [{ tool_call_id := "call_1", output := "Email sent successfully!" }]]) ∧
    (handleChat stReady "send the report" scriptStaleRun).state.messages =
      [userMsg "send the report",
       assistantMsg "send the report to a@example.com"] := by
  refine ⟨?_, ?_, ?_, ?_, ?_⟩ <;> rfl

/-- Claim C6.  After any chat cycle that completes normally, the local
transcript equals the old transcript extended by exactly the user message
carrying the prompt and then the assistant message carrying the reply; in
the event trace the local user-message append is the very first action,
before the remote append. -/
theorem transcript_ordering
    (s : SessionState) (prompt : String) (sc : ChatScript)
    (hok : (handleChat s prompt sc).outcome = Outcome.ok) :
    ∃ reply tid rest,
      (handleChat s prompt sc).state.messages =
        s.messages ++ [userMsg prompt, assistantMsg reply] ∧
      (handleChat s prompt sc).events =
        Event.localAppend (userMsg prompt) ::
          Event.remoteAppendMessage tid Role.user prompt :: rest := by
  cases hguard : truthyOpt s.assistant_id && truthyOpt s.thread_id with
  | false =>
    rw [handleChat_guard_fail s prompt sc hguard] at hok
    simp at hok
  | true =>
    obtain ⟨ha1, ht1⟩ := Bool.and_eq_true_iff.mp hguard
    obtain ⟨aid, ha, ha2⟩ := truthyOpt_some _ ha1
    obtain ⟨tid, ht, ht2⟩ := truthyOpt_some _ ht1
    cases hpoll : pollLoop tid sc.initialRun sc.retrieves with
    | none =>
      rw [handleChat_poll_none s prompt sc aid tid ha ht ha2 ht2 hpoll] at hok
      simp at hok
    | some trip =>
      obtain ⟨runA, aevs, rem⟩ := trip
      rw [handleChat_guard_pass s prompt sc aid tid ha ht ha2 ht2 runA aevs rem hpoll]
        at hok ⊢
      obtain ⟨c, tail, hshape⟩ :=
        afterPollA_ok_shape tid _ _ runA rem sc.finalMessages hok
      rw [hshape]
      refine ⟨c, tid, Event.createRun tid aid :: (aevs ++ tail), ?_, ?_⟩
      · simp
      · simp [chatStartEvents]

/-- Witness for C6: a cycle completing with the reply Hello! leaves exactly
the user prompt and the assistant reply at the end of the transcript. -/
theorem transcript_ordering_witness :
    ((handleChat stReady "hi there" scPlain).outcome = Outcome.ok) ∧
    ∃ reply tid rest,
      (handleChat stReady "hi there" scPlain).state.messages =
        stReady.messages ++ [userMsg "hi there", assistantMsg reply] ∧
      (handleChat stReady "hi there" scPlain).events =
        Event.localAppend (userMsg "hi there") ::
          Event.remoteAppendMessage tid Role.user "hi there" :: rest :=
  ⟨by decide, transcript_ordering stReady "hi there" scPlain (by decide)⟩

/-- Claim C8.  Once loop A exits on any non-`requires_action` status —
completed or failed alike, the status being arbitrary here — the handler
fetches the newest message of the thread (head of the newest-first list,
first content block, with no filter on its role, which is likewise
arbitrary here) and appends its text as an assistant message. -/
theorem newest_message_fetched
    (s : SessionState) (prompt : String) (sc : ChatScript)
    (aid tid : String) (ha : s.assistant_id = some aid) (ht : s.thread_id = some tid)
    (ha2 : aid.isEmpty = false) (ht2 : tid.isEmpty = false)
    (runA : Run) (aevs : List Event) (rem : List Run)
    (hpoll : pollLoop tid sc.initialRun sc.retrieves = some (runA, aevs, rem))
    (hnra : runA.status ≠ RunStatus.requires_action)
    (m : RemoteMessage) (restM : List RemoteMessage) (c : String) (restC : List String)
    (hm : sc.finalMessages = m :: restM) (hc : m.content = c :: restC) :
    handleChat s prompt sc =
      { state := { s with messages := s.messages ++ [userMsg prompt, assistantMsg c] },
        events := chatStartEvents tid aid prompt ++ aevs ++
          [Event.listMessages tid, Event.localAppend (assistantMsg c)],
        outcome := Outcome.ok } := by
  rw [handleChat_guard_pass s prompt sc aid tid ha ht ha2 ht2 runA aevs rem hpoll, hm,
    afterPollA_terminal tid _ _ runA rem m restM c restC hnra hc]
  simp

/-- Witness for C8: a run ending `failed` still causes the newest thread
message — here a user-role message — to be appended as the assistant reply. -/
theorem newest_message_fetched_witness :
    handleChat stReady "q" scOneFailed =
      { state := { assistant_id := some "asst_1", thread_id := some "thread_1",
                   messages := [userMsg "q", assistantMsg "what is the refund policy"],
                   email_list := [] },
        events := [Event.localAppend (userMsg "q"),
                   Event.remoteAppendMessage "thread_1" Role.user "q",
                   Event.createRun "thread_1" "asst_1",
                   Event.retrieveRun "thread_1" "run_3",
                   Event.listMessages "thread_1",
                   Event.localAppend (assistantMsg "what is the refund policy")],
        outcome := Outcome.ok } := by
  have h := newest_message_fetched stReady "q" scOneFailed "asst_1" "thread_1"
    rfl rfl rfl rfl
    { id := "run_3", status := RunStatus.failed, tool_calls := [] }
    [Event.retrieveRun "thread_1" "run_3"] []
    (by decide) (by decide)
    { role := Role.user, content := ["what is the refund policy"] } []
    "what is the refund policy" [] rfl rfl
  simpa [stReady, chatStartEvents] using h

/-- Claim C2.  In a cycle whose run requires action once with well-formed
`send_email` arguments and whose thread then yields a reply, the tool
executor runs exactly once per `send_email`-named request, exactly one
tool-output batch is submitted — pairing each request's call identifier with
the fixed success text — exactly one assistant message is appended, the
cycle completes, and no script can ever make the handler submit more than
one round of tool outputs. -/
theorem single_tool_round
    (s : SessionState) (prompt : String) (sc : ChatScript)
    (aid tid : String) (ha : s.assistant_id = some aid) (ht : s.thread_id = some tid)
    (ha2 : aid.isEmpty = false) (ht2 : tid.isEmpty = false)
    (runA : Run) (aevs : List Event) (rem : List Run)
    (hpoll : pollLoop tid sc.initialRun sc.retrieves = some (runA, aevs, rem))
    (hra : runA.status = RunStatus.requires_action)
    (hargs : ∀ tc ∈ runA.tool_calls, tc.function_name = "send_email" →
      (parseEmailArgs tc.function_arguments).isSome = true)
    (m : RemoteMessage) (restM : List RemoteMessage) (c : String) (restC : List String)
    (hm : sc.finalMessages = m :: restM) (hc : m.content = c :: restC) :
    ((handleChat s prompt sc).events.filter Event.isSendEmail).length =
      (runA.tool_calls.filter (fun tc => tc.function_name == "send_email")).length ∧
    (handleChat s prompt sc).events.filter Event.isSubmit =
      [Event.submitToolOutputs tid runA.id
        ((runA.tool_calls.filter (fun tc => tc.function_name == "send_email")).map
          expectedOutput)] ∧
    ((handleChat s prompt sc).events.filter Event.isAssistantAppend).length = 1 ∧
    (handleChat s prompt sc).outcome = Outcome.ok ∧
    ∀ sc2 : ChatScript,
      ((handleChat s prompt sc2).events.filter Event.isSubmit).length ≤ 1 := by
  obtain ⟨devs, hd, hlen⟩ := dispatchCalls_all_ok runA.tool_calls hargs
  have hstart := chatStartEvents_filters tid aid prompt
  have haevs := all_retrieve_filters aevs
    (pollLoop_events_retrieve tid sc.initialRun sc.retrieves runA aevs rem hpoll)
  have hdevs := dispatchCalls_events_classified runA.tool_calls
  rw [hd] at hdevs
  have hdevs_sub : devs.filter Event.isSubmit = [] := by
    rw [List.filter_eq_nil_iff]
    intro e he
    simp [(hdevs e he).1]
  have hdevs_app : devs.filter Event.isAssistantAppend = [] := by
    rw [List.filter_eq_nil_iff]
    intro e he
    simp [(hdevs e he).2.1]
  rw [handleChat_guard_pass s prompt sc aid tid ha ht ha2 ht2 runA aevs rem hpoll, hm,
    afterPollA_requires tid _ _ runA rem devs _ m restM c restC hra hd hc]
  refine ⟨?_, ?_, ?_, rfl, fun sc2 => handleChat_submit_le_one s prompt sc2⟩
  · simp only [List.filter_append, List.length_append, hstart.2.1, haevs.1]
    simp [Event.isSendEmail, hlen]
  · simp only [List.filter_append, hstart.1, haevs.2.1, hdevs_sub]
    simp [Event.isSubmit]
  · simp only [List.filter_append, List.length_append, hstart.2.2, haevs.2.2, hdevs_app]
    simp [Event.isAssistantAppend, assistantMsg]

/-- Witness for C2: one good `send_email` request is fulfilled with one
executor call, one submitted batch, and one appended assistant reply. -/
theorem single_tool_round_witness :
    ((handleChat stReady "email it" scToolRound).events.filter Event.isSendEmail).length =
      (runRAW.tool_calls.filter (fun tc => tc.function_name == "send_email")).length ∧
    (handleChat stReady "email it" scToolRound).events.filter Event.isSubmit =
      [Event.submitToolOutputs "thread_1" "run_4"
        ((runRAW.tool_calls.filter (fun tc => tc.function_name == "send_email")).map
          expectedOutput)] ∧
    ((handleChat stReady "email it" scToolRound).events.filter
        Event.isAssistantAppend).length = 1 ∧
    (handleChat stReady "email it" scToolRound).outcome = Outcome.ok ∧
    ((handleChat stReady "email it" scToolRound).events.filter Event.isSubmit).length ≤ 1 := by
  have h := single_tool_round stReady "email it" scToolRound "asst_1" "thread_1"
    rfl rfl rfl rfl runRAW [] [] (by decide) (by decide) (by decide)
    { role := Role.assistant, content := ["Done."] } [] "Done." [] rfl rfl
  exact ⟨h.1, h.2.1, h.2.2.1, h.2.2.2.1, h.2.2.2.2 scToolRound⟩

/-- Claim C10.  Dispatching a `send_email` request parses its payload as
JSON and reads exactly the keys to, subject and body — the parse succeeds
precisely when the payload is a JSON object carrying all three — and when
the dispatch of a batch raises (invalid JSON or a missing key), the cycle
ends in an uncaught error with no tool outputs submitted and no assistant
message appended. -/
theorem bad_tool_args_abort
    (s : SessionState) (prompt : String) (sc : ChatScript)
    (aid tid : String) (ha : s.assistant_id = some aid) (ht : s.thread_id = some tid)
    (ha2 : aid.isEmpty = false) (ht2 : tid.isEmpty = false)
    (runA : Run) (aevs : List Event) (rem : List Run)
    (hpoll : pollLoop tid sc.initialRun sc.retrieves = some (runA, aevs, rem))
    (hra : runA.status = RunStatus.requires_action)
    (devs : List Event)
    (hd : dispatchCalls runA.tool_calls = (devs, none)) :
    (∀ fields : List (String × String),
      (parseEmailArgs (ArgsJson.object fields)).isSome =
        ((lookupField fields "to").isSome && (lookupField fields "subject").isSome &&
          (lookupField fields "body").isSome)) ∧
    parseEmailArgs ArgsJson.invalid = none ∧
    (handleChat s prompt sc).outcome = Outcome.exn "tool argument error" ∧
    (handleChat s prompt sc).events.filter Event.isSubmit = [] ∧
    (handleChat s prompt sc).events.filter Event.isAssistantAppend = [] := by
  have hstart := chatStartEvents_filters tid aid prompt
  have haevs := all_retrieve_filters aevs
    (pollLoop_events_retrieve tid sc.initialRun sc.retrieves runA aevs rem hpoll)
  have hdevs := dispatchCalls_events_classified runA.tool_calls
  rw [hd] at hdevs
  have hdevs_sub : devs.filter Event.isSubmit = [] := by
    rw [List.filter_eq_nil_iff]
    intro e he
    simp [(hdevs e he).1]
  have hdevs_app : devs.filter Event.isAssistantAppend = [] := by
    rw [List.filter_eq_nil_iff]
    intro e he
    simp [(hdevs e he).2.1]
  rw [handleChat_guard_pass s prompt sc aid tid ha ht ha2 ht2 runA aevs rem hpoll,
    afterPollA_dispatch_fail tid _ _ runA rem devs sc.finalMessages hra hd]
  refine ⟨?_, rfl, rfl, ?_, ?_⟩
  · intro fields
    simp only [parseEmailArgs, json_loads]
    cases h1 : lookupField fields "to" <;> cases h2 : lookupField fields "subject" <;>
      cases h3 : lookupField fields "body" <;> simp
  · simp [List.filter_append, hstart.1, haevs.2.1, hdevs_sub]
  · simp [List.filter_append, hstart.2.2, haevs.2.2, hdevs_app]

/-- Witness for C10: a `send_email` request missing the subject and body
keys aborts the cycle with no submission and no assistant append. -/
theorem bad_tool_args_abort_witness :
    ((parseEmailArgs (ArgsJson.object [("to", "a@example.com")])).isSome =
      ((lookupField [("to", "a@example.com")] "to").isSome &&
        (lookupField [("to", "a@example.com")] "subject").isSome &&
        (lookupField [("to", "a@example.com")] "body").isSome)) ∧
    (handleChat stReady "email it" scBadArgs).outcome =
      Outcome.exn "tool argument error" ∧
    (handleChat stReady "email it" scBadArgs).events.filter Event.isSubmit = [] ∧
    (handleChat stReady "email it" scBadArgs).events.filter Event.isAssistantAppend = [] := by
  have h := bad_tool_args_abort stReady "email it" scBadArgs "asst_1" "thread_1"
    rfl rfl rfl rfl runRABad [] [] (by decide) (by decide)
    [Event.info "Assistant is requesting to send an email..."] (by decide)
  exact ⟨h.1 [("to", "a@example.com")], h.2.2.1, h.2.2.2.1, h.2.2.2.2⟩

end Picky
